import Mathlib

/-!
Shallow embedding of the wasm (WebAudio) backend of the cpal audio library,
the file src/host/wasm/mod.rs. Platform effects (the browser Window object,
the AudioContext and its methods, the interval timer) are modelled as
explicit parameters and as records of the arguments the code passes to the
platform. The render path only copies f32 samples and never computes on
them, so Float stands in for f32 directly.
-/

namespace CpalWasm

/-- Sample formats of the cross-backend layer. -/
inductive SampleFormat where
  | I16
  | U16
  | F32
  deriving DecidableEq

/-- Requested stream configuration: channel count and sample rate in Hz. -/
structure StreamConfig where
  channels : Nat
  sample_rate : Nat

/-- One supported configuration range (SupportedStreamConfigRange). -/
structure SupportedStreamConfigRange where
  channels : Nat
  min_sample_rate : Nat
  max_sample_rate : Nat
  sample_format : SampleFormat

/-- A concrete supported configuration (SupportedStreamConfig). -/
structure SupportedStreamConfig where
  channels : Nat
  sample_rate : Nat
  sample_format : SampleFormat

/-- Error kinds for supported-configs queries, at the trait boundary. -/
inductive SupportedStreamConfigsError where
  | deviceNotAvailable
  | invalidArgument
  | backendSpecific (description : String)

/-- Error kinds for default-config queries, at the trait boundary. -/
inductive DefaultStreamConfigError where
  | deviceNotAvailable
  | streamTypeNotSupported
  | backendSpecific (description : String)

/-- Error kinds for stream construction, at the trait boundary. -/
inductive BuildStreamError where
  | deviceNotAvailable
  | streamConfigNotSupported
  | invalidArgument
  | backendSpecific (description : String)

/-- Error kinds for play, at the trait boundary. -/
inductive PlayStreamError where
  | deviceNotAvailable
  | backendSpecific (description : String)

/-- Error kinds for pause, at the trait boundary. -/
inductive PauseStreamError where
  | deviceNotAvailable
  | backendSpecific (description : String)

/-- The single wasm Device: a zero-state handle. -/
structure Device

/-- The DEFAULT_SAMPLE_RATE constant of the backend. -/
def DEFAULT_SAMPLE_RATE : Nat := 48000

namespace Device

/-- Device.supported_input_configs: always the backend-specific error with
description unimplemented. -/
def supported_input_configs :
    Except SupportedStreamConfigsError (List SupportedStreamConfigRange) :=
  Except.error (SupportedStreamConfigsError.backendSpecific "unimplemented!")

/-- Device.supported_output_configs: a fresh singleton sequence holding the
one hard-coded range (2 channels, 48000 Hz min and max, F32). -/
def supported_output_configs :
    Except SupportedStreamConfigsError (List SupportedStreamConfigRange) :=
  Except.ok [⟨2, DEFAULT_SAMPLE_RATE, DEFAULT_SAMPLE_RATE, SampleFormat.F32⟩]

/-- Device.default_input_config: always StreamTypeNotSupported. -/
def default_input_config : Except DefaultStreamConfigError SupportedStreamConfig :=
  Except.error DefaultStreamConfigError.streamTypeNotSupported

/-- Device.default_output_config: always the hard-coded config. -/
def default_output_config : Except DefaultStreamConfigError SupportedStreamConfig :=
  Except.ok ⟨2, DEFAULT_SAMPLE_RATE, SampleFormat.F32⟩

end Device

/-- The num_channels local of the render closure, hard-coded to 2. -/
def num_channels : Nat := 2

/-- Length of the scratch buffer allocated on each tick:
DEFAULT_SAMPLE_RATE * 2 / 3 float slots (Rust integer arithmetic on usize,
which Nat arithmetic matches here since no overflow is possible). -/
def temporary_buffer_len : Nat := DEFAULT_SAMPLE_RATE * 2 / 3

/-- The zero-initialized scratch buffer allocated at the start of each tick,
before the data callback runs. -/
def temporary_buffer_init : List Float := List.replicate temporary_buffer_len 0

/-- The scratch buffer after the data callback wrote it. The callback gets a
mutable view of fixed length, so it is modelled as a function from slot
index to sample; the length cannot change. -/
def render_scratch (fill : Nat → Float) : List Float :=
  (List.range temporary_buffer_len).map fill

/-- The copy loop for one channel c: the platform channel buffer has frames
slots, and slot i receives temporary_buffer (i * nc + c). Out-of-range reads
default to 0, which never happens at the in-range indices the loop uses. -/
def renderChannelData (nc frames : Nat) (scratch : List Float) (c : Nat) : List Float :=
  (List.range frames).map fun i => scratch.getD (i * nc + c) 0

/-- The per-channel buffers written by the copy loop of the render closure,
one list per channel in [0, nc). -/
def deinterleave (nc frames : Nat) (scratch : List Float) : List (List Float) :=
  (List.range nc).map (renderChannelData nc frames scratch)

/-- Observable effect of one tick of the render closure: the arguments the
code passes to create_buffer and the channel contents it writes into the
created platform buffer. -/
structure RenderOutput where
  createBufferChannels : Nat
  createBufferFrames : Nat
  createBufferSampleRate : Nat
  channelData : List (List Float)

/-- One tick of the render closure registered by build_output_stream_raw:
allocate the scratch buffer, run the data callback on it, then create the
platform buffer with (num_channels, buf_len / num_channels,
DEFAULT_SAMPLE_RATE) and deinterleave the scratch into its channels. -/
def renderTick (fill : Nat → Float) : RenderOutput :=
  let temporary_buffer := render_scratch fill
  let buf_len := temporary_buffer.length
  ⟨num_channels, buf_len / num_channels, DEFAULT_SAMPLE_RATE,
    deinterleave num_channels (buf_len / num_channels) temporary_buffer⟩

/-- A stream created by build_output_stream_raw, together with the render
closure it registered on the 10 ms interval timer. -/
structure CreatedStream where
  renderFn : (Nat → Float) → RenderOutput

/-- Outcome of building an output stream: a created stream, a typed error,
or a process abort (the assert_eq macro in the source panics). -/
inductive BuildResult where
  | ok (s : CreatedStream)
  | err (e : BuildStreamError)
  | aborted (msg : String)

/-- build_input_stream_raw: always the typed StreamConfigNotSupported
error, never a crash; its arguments are never read. -/
def build_input_stream_raw (_config : StreamConfig) (_sample_format : SampleFormat) :
    BuildResult :=
  BuildResult.err BuildStreamError.streamConfigNotSupported

/-- build_output_stream_raw: asserts the sample format is F32 (aborting the
process otherwise), then creates the AudioContext, builds the Stream and
registers the render closure on a 10 ms interval. The config argument is
bound as an underscore in the source and never read. -/
def build_output_stream_raw (_config : StreamConfig) (sample_format : SampleFormat) :
    BuildResult :=
  if sample_format = SampleFormat.F32 then
    BuildResult.ok ⟨renderTick⟩
  else
    BuildResult.aborted "wasm32 backend currently only supports f32 data"

/-- StreamTrait play: the platform resume outcome is bound to an underscore
and discarded; the call always reports success. -/
def play (_resume_result : Except String Unit) : Except PlayStreamError Unit :=
  Except.ok ()

/-- StreamTrait pause: the platform suspend outcome is bound to an
underscore and discarded; the call always reports success. -/
def pause (_suspend_result : Except String Unit) : Except PauseStreamError Unit :=
  Except.ok ()

/-- is_webaudio_available: whether the global Window object exists, the
platform state at the moment of the call being passed in explicitly. -/
def is_webaudio_available (windowExists : Bool) : Bool := windowExists

/-- default_output_device: the singleton device when WebAudio is available,
none otherwise. -/
def default_output_device (windowExists : Bool) : Option Device :=
  if is_webaudio_available windowExists then some ⟨⟩ else none

/-- default_input_device: always none. -/
def default_input_device : Option Device := none

/-- The Devices enumerator: content is false when the iterator is empty. -/
structure Devices where
  available : Bool

/-- Default for Devices: snapshots WebAudio availability at construction. -/
def Devices.default (windowExists : Bool) : Devices :=
  ⟨is_webaudio_available windowExists⟩

/-- Iterator next for Devices: yields the device once while the flag is
set, clearing the flag; yields none with the flag clear. -/
def Devices.next : Devices → Option Device × Devices
  | ⟨true⟩ => (some ⟨⟩, ⟨false⟩)
  | ⟨false⟩ => (none, ⟨false⟩)

/-- The result and state of the call numbered n (0-indexed) of next on an
enumerator, threading the state through the successive calls. -/
def nextCalls (d : Devices) : Nat → Option Device × Devices
  | 0 => d.next
  | n + 1 => (nextCalls d n).2.next

/-- After any call of next the enumerator state has its flag cleared. -/
theorem nextCalls_snd (d : Devices) (n : Nat) : (nextCalls d n).2 = ⟨false⟩ := by
  induction n with
  | zero =>
    rcases d with ⟨_ | _⟩ <;> rfl
  | succ k ih =>
    show ((nextCalls d k).2.next).2 = ⟨false⟩
    rw [ih]
    rfl

/-- Reading a mapped range list at an in-range index yields the function
applied to that index. -/
theorem getD_map_range {α : Type} (g : Nat → α) (n i : Nat) (hi : i < n) (d : α) :
    ((List.range n).map g).getD i d = g i := by
  rw [List.getD_eq_getElem?_getD, List.getElem?_map, List.getElem?_range hi]
  rfl

/-- C1: Deinterleave correctness of the render callback: for every scratch
buffer of length channels * frames with channels = 2, the per-channel
buffers written by the copy loop satisfy channel c slot f = scratch
(f * channels + c) for every channel c below 2 and every frame f below
frames. -/
theorem C1_deinterleave_correct (v : List Float) (frames c f : Nat)
    (hlen : v.length = 2 * frames) (hc : c < 2) (hf : f < frames) :
    ((deinterleave 2 frames v).getD c []).getD f 0 = v.getD (f * 2 + c) 0 := by
  unfold deinterleave renderChannelData
  rw [getD_map_range _ 2 c hc, getD_map_range _ frames f hf]

/-- Witness for C1 on a concrete four-slot interleaved buffer with two
frames, at channel 1 and frame 1. -/
theorem C1_witness :
    ([10.0, 20.0, 30.0, 40.0] : List Float).length = 2 * 2 ∧ 1 < 2 ∧ 1 < 2 ∧
      ((deinterleave 2 2 [10.0, 20.0, 30.0, 40.0]).getD 1 []).getD 1 0
        = ([10.0, 20.0, 30.0, 40.0] : List Float).getD (1 * 2 + 1) 0 :=
  ⟨rfl, by decide, by decide,
    C1_deinterleave_correct [10.0, 20.0, 30.0, 40.0] 2 1 1 rfl (by decide) (by decide)⟩

/-- C2: the claim asks for a typed BuildStreamError on any non-F32 sample
format; the source instead aborts the process through its assert on the
sample format. Evaluated at the failing input I16, and at F32 where the
check passes and a stream is created. -/
theorem C2_nonf32_aborts :
    build_output_stream_raw ⟨2, 48000⟩ SampleFormat.I16
      = BuildResult.aborted "wasm32 backend currently only supports f32 data" ∧
    build_output_stream_raw ⟨2, 48000⟩ SampleFormat.F32 = BuildResult.ok ⟨renderTick⟩ :=
  ⟨rfl, rfl⟩

/-- C3: on a fresh enumerator the first call of next yields the device
exactly when the availability snapshot taken at construction was true, and
every later call yields none, forever. -/
theorem C3_devices_iterator (windowExists : Bool) :
    (((Devices.default windowExists).next).1 = some ⟨⟩ ↔ windowExists = true) ∧
    ∀ n : Nat, (nextCalls (Devices.default windowExists) (n + 1)).1 = none := by
  constructor
  · cases windowExists <;>
      simp [Devices.default, Devices.next, is_webaudio_available]
  · intro n
    show ((nextCalls (Devices.default windowExists) n).2.next).1 = none
    rw [nextCalls_snd]
    rfl

/-- C4: supported_output_configs always succeeds with exactly the one range
(2 channels, min 48000, max 48000, F32), and default_output_config always
succeeds with (2 channels, 48000 Hz, F32); both are pure values, identical
on every call. -/
theorem C4_output_configs :
    Device.supported_output_configs
      = Except.ok [⟨2, 48000, 48000, SampleFormat.F32⟩] ∧
    Device.default_output_config = Except.ok ⟨2, 48000, SampleFormat.F32⟩ :=
  ⟨rfl, rfl⟩

/-- C5: every stream actually created by build_output_stream_raw renders
with exactly 2 channels and 48000 Hz in the create_buffer call, whatever
the requested config and for every data callback. -/
theorem C5_fixed_render_params (config : StreamConfig) (fmt : SampleFormat)
    (s : CreatedStream) (h : build_output_stream_raw config fmt = BuildResult.ok s)
    (fill : Nat → Float) :
    (s.renderFn fill).createBufferChannels = 2 ∧
    (s.renderFn fill).createBufferSampleRate = 48000 := by
  cases fmt with
  | I16 => exact absurd h (by simp [build_output_stream_raw])
  | U16 => exact absurd h (by simp [build_output_stream_raw])
  | F32 =>
    have hs : s = ⟨renderTick⟩ := by
      simpa [build_output_stream_raw, eq_comm] using h
    subst hs
    exact ⟨rfl, rfl⟩

/-- Witness for C5 at the requested config (7 channels, 44100 Hz), which is
neither of the hard-coded values, with a constant-zero data callback. -/
theorem C5_witness :
    build_output_stream_raw ⟨7, 44100⟩ SampleFormat.F32 = BuildResult.ok ⟨renderTick⟩ ∧
    ((CreatedStream.mk renderTick).renderFn (fun _ => 0)).createBufferChannels = 2 ∧
    ((CreatedStream.mk renderTick).renderFn (fun _ => 0)).createBufferSampleRate = 48000 :=
  ⟨rfl,
    C5_fixed_render_params ⟨7, 44100⟩ SampleFormat.F32 ⟨renderTick⟩ rfl (fun _ => 0)⟩

/-- C6: input is categorically unsupported and reported through typed
results on every call: no default input device, StreamTypeNotSupported for
the default config, the backend-specific unimplemented error for supported
configs, and StreamConfigNotSupported from build_input_stream_raw. -/
theorem C6_input_unsupported :
    default_input_device = none ∧
    Device.default_input_config
      = Except.error DefaultStreamConfigError.streamTypeNotSupported ∧
    Device.supported_input_configs
      = Except.error (SupportedStreamConfigsError.backendSpecific "unimplemented!") ∧
    ∀ (config : StreamConfig) (fmt : SampleFormat),
      build_input_stream_raw config fmt
        = BuildResult.err BuildStreamError.streamConfigNotSupported :=
  ⟨rfl, rfl, rfl, fun _ _ => rfl⟩

/-- C7: each tick allocates a zero-initialized scratch buffer of exactly
48000 * 2 / 3 float slots (32000), and that length is a multiple of the
fixed channel count 2, so the divisibility assertion in the callback holds
for every data callback. -/
theorem C7_scratch_buffer :
    temporary_buffer_init = List.replicate (48000 * 2 / 3) 0 ∧
    temporary_buffer_init.length = 32000 ∧
    ∀ fill : Nat → Float, (render_scratch fill).length % num_channels = 0 := by
  refine ⟨rfl, ?_, ?_⟩
  · rw [temporary_buffer_init, List.length_replicate]
    decide
  · intro fill
    have h : (render_scratch fill).length = temporary_buffer_len := by
      rw [render_scratch, List.length_map, List.length_range]
    rw [h]
    decide

/-- C8: play and pause always return Ok, whatever the outcome of the
underlying platform resume or suspend call, which is discarded. -/
theorem C8_play_pause_always_ok :
    (∀ r : Except String Unit, play r = Except.ok ()) ∧
    (∀ r : Except String Unit, pause r = Except.ok ()) :=
  ⟨fun _ => rfl, fun _ => rfl⟩

/-- C9: default_output_device yields the singleton device exactly when the
global Window object exists at the moment of the call, and
default_input_device is none unconditionally. -/
theorem C9_default_devices (windowExists : Bool) :
    (default_output_device windowExists = some ⟨⟩
      ↔ is_webaudio_available windowExists = true) ∧
    default_input_device = none := by
  cases windowExists <;>
    simp [default_output_device, default_input_device, is_webaudio_available]

/-- C10: build_output_stream_raw never validates the requested config: with
F32 every config yields Ok with a stream, and for every sample format the
result does not depend on the config at all. -/
theorem C10_config_never_validated (config config₂ : StreamConfig) :
    build_output_stream_raw config SampleFormat.F32 = BuildResult.ok ⟨renderTick⟩ ∧
    ∀ fmt : SampleFormat,
      build_output_stream_raw config fmt = build_output_stream_raw config₂ fmt :=
  ⟨rfl, fun _ => rfl⟩

end CpalWasm
